import Mathlib

/-!
Verification of the feature-engagement decision engine
(`components/feature_engagement_tracker/internal/feature_engagement_tracker_impl.cc`).

The orchestrator (`FeatureEngagementTrackerImpl`) is embedded directly from the
source file.  Its collaborators (Model, ConditionValidator, Configuration,
AvailabilityModel, the task runner) are declared in headers outside the
excerpt, so they are modelled from the specification, as documented on each
definition.  Features are identified by their `base::Feature` name (a string),
and the `TimeProvider`'s `GetCurrentDay()` result is passed as an explicit
`day` argument to each operation.
-/

namespace FeatureEngagement

/-- `EventConfig` from the spec data model: the event descriptor a
`FeatureConfig` carries.  The orchestrator reads only the `name` field
(`feature_config.trigger.name`); the comparator window fields are kept as
data. -/
structure EventConfig where
  name : String
  window_days : Nat := 0
  storage_window_days : Nat := 0
  deriving DecidableEq, Repr

/-- `FeatureConfig` from the spec data model: `valid` flag plus the trigger
and used event descriptors.  The orchestrator reads `valid` (via the
validator) and `trigger.name`. -/
structure FeatureConfig where
  valid : Bool
  trigger : EventConfig
  used : EventConfig := ⟨"", 0, 0⟩
  deriving DecidableEq, Repr

/-- Modelled from the spec: the Model's event-count store, a mapping from
event name to per-day buckets, kept as a list of `(name, day, count)`
triples with at most one triple per `(name, day)` pair. -/
abbrev EventStore := List (String × Nat × Nat)

/-- Modelled from the spec: look up the stored count for `(name, day)`;
absent buckets count as zero. -/
def getEventCount : EventStore → String → Nat → Nat
  | [], _, _ => 0
  | (n, d, c) :: rest, name, day =>
    if n = name ∧ d = day then c else getEventCount rest name day

/-- Modelled from the spec: increment the bucket for `(name, day)`, creating
it if absent. -/
def incrementBucket : EventStore → String → Nat → EventStore
  | [], name, day => [(name, day, 1)]
  | (n, d, c) :: rest, name, day =>
    if n = name ∧ d = day then (n, d, c + 1) :: rest
    else (n, d, c) :: incrementBucket rest name day

/-- Modelled from the spec: the Model component.  `ready` is the `IsReady()`
flag, true only after the asynchronous load delivered `success = true`;
`events` is the event-count store.  (The Model's own code —
`InitAwareModel`/`ModelImpl` — is not in the excerpt.) -/
structure ModelState where
  ready : Bool
  events : EventStore
  deriving DecidableEq, Repr

/-- Modelled from the spec: `Model::IncrementEvent(name, day)`.  Before
readiness the engine is lossy: the increment is dropped, not queued
(spec §5, "events recorded via NotifyEvent before readiness are dropped");
when ready, the `(name, day)` bucket is incremented. -/
def ModelState.incrementEvent (m : ModelState) (name : String) (day : Nat) :
    ModelState :=
  if m.ready then { m with events := incrementBucket m.events name day } else m

/-- Modelled from the spec: the Model finishing its asynchronous load.
`IsReady()` becomes true exactly when the load succeeded; on failure the
Model is permanently not-ready. -/
def ModelState.onLoadComplete (m : ModelState) (success : Bool) : ModelState :=
  { m with ready := success }

/-- Modelled from the spec: `Configuration::GetFeatureConfig(feature)` —
lookup in the feature → `FeatureConfig` map; a feature that was never
registered yields a config with `valid = false`. -/
def GetFeatureConfig : List (String × FeatureConfig) → String → FeatureConfig
  | [], _ => { valid := false, trigger := ⟨"", 0, 0⟩ }
  | (f, c) :: rest, feature =>
    if f = feature then c else GetFeatureConfig rest feature

/-- Modelled from the spec: `AvailabilityModel::GetAvailabilityDays`, a
feature → days-available map; absent means unknown.  The demo-mode
`NeverAvailabilityModel` is the empty map (always unknown). -/
abbrev AvailabilityModel := List (String × Nat)

/-- Modelled from the spec: days since `feature` became available, or `none`
if unknown. -/
def GetAvailabilityDays : AvailabilityModel → String → Option Nat
  | [], _ => none
  | (f, d) :: rest, feature =>
    if f = feature then some d else GetAvailabilityDays rest feature

/-- Modelled from the spec: the one-shot `ConditionValidator`'s session state
(the variant the demo-mode wiring instantiates): the set of features
currently showing, and the set of features that have already satisfied
their trigger irrevocably. -/
structure ConditionValidatorState where
  currently_showing : List String
  shown_features : List String
  deriving DecidableEq, Repr

/-- Modelled from the spec: `ConditionValidator::MeetsConditions(...)
.NoErrors()` for the one-shot validator.  The spec requires
`ShouldTriggerHelpUI` to return false unconditionally when the engine is not
READY; since the orchestrator delegates unconditionally, the readiness gate
lives here.  The remaining rules are the `valid` config gate, the
"currently showing" session rule and the one-shot "already triggered" rule;
all rules are evaluated over the passed-in model, availability model and
current day.  The demo wiring pairs this validator with
`NeverAvailabilityModel`, so no availability rule constrains the result. -/
def MeetsConditions (v : ConditionValidatorState) (feature : String)
    (config : FeatureConfig) (model : ModelState)
    (_availability : AvailabilityModel) (_currentDay : Nat) : Bool :=
  model.ready && config.valid && !decide (feature ∈ v.currently_showing)
    && !decide (feature ∈ v.shown_features)

/-- Modelled from the spec: `ConditionValidator::NotifyIsShowing(feature)` —
marks the feature currently showing and, for the one-shot variant, records
it as having triggered irrevocably. -/
def NotifyIsShowing (v : ConditionValidatorState) (feature : String) :
    ConditionValidatorState :=
  { currently_showing :=
      if feature ∈ v.currently_showing then v.currently_showing
      else feature :: v.currently_showing,
    shown_features :=
      if feature ∈ v.shown_features then v.shown_features
      else feature :: v.shown_features }

/-- Modelled from the spec: `ConditionValidator::NotifyDismissed(feature)` —
clears the "currently showing" state for that feature; idempotent.  The
one-shot `shown_features` memory is untouched. -/
def NotifyDismissed (v : ConditionValidatorState) (feature : String) :
    ConditionValidatorState :=
  { v with currently_showing :=
      v.currently_showing.filter (fun f => f ≠ feature) }

/-- The state of a `FeatureEngagementTrackerImpl` together with the task
queue of its sequence.  `model`, `availability_model`, `configuration` and
`condition_validator` are the owned components; `initialization_finished`
and `on_initialized_callbacks` are the members of the same names.
Callbacks are identified by `Nat` tokens; `posted_tasks` models the tasks
posted to `ThreadTaskRunnerHandle::Get()` (callback token paired with the
bound success value) and `delivered` the history of callback invocations
once those tasks run. -/
structure TrackerState where
  model : ModelState
  availability_model : AvailabilityModel
  configuration : List (String × FeatureConfig)
  condition_validator : ConditionValidatorState
  initialization_finished : Bool
  on_initialized_callbacks : List Nat
  posted_tasks : List (Nat × Bool)
  delivered : List (Nat × Bool)
  deriving DecidableEq, Repr

/-- `FeatureEngagementTrackerImpl::NotifyEvent(event)`: forwards to
`model_->IncrementEvent(event, time_provider_->GetCurrentDay())`. -/
def NotifyEvent (s : TrackerState) (event : String) (day : Nat) :
    TrackerState :=
  { s with model := s.model.incrementEvent event day }

/-- `FeatureEngagementTrackerImpl::ShouldTriggerHelpUI(feature)`: computes
`result` by delegating to
`condition_validator_->MeetsConditions(feature, config, *model_,
*availability_model_, day).NoErrors()`; if `result`, calls
`NotifyIsShowing(feature)` and increments the config's trigger event for
the current day; returns the updated state with `result`.  (The source's
`DCHECK_NE("", feature_config.trigger.name)` is the subject of the
`triggerNameSet` contract below.) -/
def ShouldTriggerHelpUI (s : TrackerState) (feature : String) (day : Nat) :
    TrackerState × Bool :=
  let result := MeetsConditions s.condition_validator feature
    (GetFeatureConfig s.configuration feature) s.model s.availability_model day
  if result then
    let feature_config := GetFeatureConfig s.configuration feature
    ({ s with
        condition_validator := NotifyIsShowing s.condition_validator feature,
        model := s.model.incrementEvent feature_config.trigger.name day },
      true)
  else
    (s, false)

/-- `FeatureEngagementTrackerImpl::Dismissed(feature)`: forwards to
`condition_validator_->NotifyDismissed(feature)`. -/
def Dismissed (s : TrackerState) (feature : String) : TrackerState :=
  { s with condition_validator := NotifyDismissed s.condition_validator feature }

/-- `FeatureEngagementTrackerImpl::IsInitialized()`: returns
`model_->IsReady()`. -/
def IsInitialized (s : TrackerState) : Bool :=
  s.model.ready

/-- `FeatureEngagementTrackerImpl::AddOnInitializedCallback(callback)`: if
`initialization_finished_`, posts a task binding the callback to
`model_->IsReady()` and returns; otherwise appends the callback to
`on_initialized_callbacks_`. -/
def AddOnInitializedCallback (s : TrackerState) (cb : Nat) : TrackerState :=
  if s.initialization_finished then
    { s with posted_tasks := s.posted_tasks ++ [(cb, s.model.ready)] }
  else
    { s with on_initialized_callbacks := s.on_initialized_callbacks ++ [cb] }

/-- `FeatureEngagementTrackerImpl::OnModelInitializationFinished(success)`:
sets `initialization_finished_ = true`, posts one task per queued callback
bound to `success` (in queue order), then clears the queue.  (The source's
`DCHECK_EQ(success, model_->IsReady())` holds here because the Model sets
its readiness before invoking this callback — see
`modelInitializationFinished`.) -/
def OnModelInitializationFinished (s : TrackerState) (success : Bool) :
    TrackerState :=
  { s with
      initialization_finished := true,
      posted_tasks :=
        s.posted_tasks ++ s.on_initialized_callbacks.map (fun cb => (cb, success)),
      on_initialized_callbacks := [] }

/-- The complete "model initialization finished" event: the Model records
the load outcome (so `IsReady()` reflects `success`), then the tracker's
bound `OnModelInitializationFinished` callback runs. -/
def modelInitializationFinished (s : TrackerState) (success : Bool) :
    TrackerState :=
  OnModelInitializationFinished
    { s with model := s.model.onLoadComplete success } success

/-- Run the task at the head of the posted-task queue, if any: the bound
callback is invoked with its bound success value (recorded in
`delivered`). -/
def runTask (s : TrackerState) : TrackerState :=
  match s.posted_tasks with
  | [] => s
  | t :: rest => { s with posted_tasks := rest, delivered := s.delivered ++ [t] }

/-- Run `n` tasks from the posted-task queue in order. -/
def runTasks (s : TrackerState) : Nat → TrackerState
  | 0 => s
  | n + 1 => runTasks (runTask s) n

/-- One observable operation on the tracker, as enumerated by the public
interface plus the sequence's task pump. -/
inductive TrackerOp where
  | notifyEvent (event : String) (day : Nat)
  | shouldTriggerHelpUI (feature : String) (day : Nat)
  | dismissed (feature : String)
  | isInitialized
  | addOnInitializedCallback (cb : Nat)
  | onModelInitializationFinished (success : Bool)
  | runTask
  deriving DecidableEq, Repr

/-- Apply one operation to the tracker state. -/
def applyOp (s : TrackerState) : TrackerOp → TrackerState
  | .notifyEvent event day => NotifyEvent s event day
  | .shouldTriggerHelpUI feature day => (ShouldTriggerHelpUI s feature day).1
  | .dismissed feature => Dismissed s feature
  | .isInitialized => s
  | .addOnInitializedCallback cb => AddOnInitializedCallback s cb
  | .onModelInitializationFinished success => modelInitializationFinished s success
  | .runTask => runTask s

/-- Apply a sequence of operations in order. -/
def applyOps (s : TrackerState) (ops : List TrackerOp) : TrackerState :=
  ops.foldl applyOp s

/-- Register a sequence of callbacks one after the other. -/
def registerAll (s : TrackerState) (cbs : List Nat) : TrackerState :=
  cbs.foldl AddOnInitializedCallback s

/-- A sample valid feature config, mirroring the demo-mode construction
(`feature_config.valid = true`, `trigger.name = name + "_trigger"`). -/
def cfgF1 : FeatureConfig :=
  { valid := true, trigger := ⟨"F1_trigger", 0, 0⟩ }

/-- A sample tracker state whose Model has not (yet) become ready: freshly
constructed, still INITIALIZING, with a valid config registered for
feature `"F1"`. -/
def s0 : TrackerState :=
  { model := ⟨false, []⟩,
    availability_model := [],
    configuration := [("F1", cfgF1)],
    condition_validator := ⟨[], []⟩,
    initialization_finished := false,
    on_initialized_callbacks := [],
    posted_tasks := [],
    delivered := [] }

/-- The sample tracker state after successful initialization. -/
def sReady : TrackerState :=
  { s0 with model := ⟨true, []⟩, initialization_finished := true }

/-! ## Helper lemmas -/

theorem getEventCount_incrementBucket (es : EventStore) (n : String) (d : Nat) :
    getEventCount (incrementBucket es n d) n d = getEventCount es n d + 1 := by
  induction es with
  | nil => simp [incrementBucket, getEventCount]
  | cons hd tl ih =>
    obtain ⟨hn, hd', hc⟩ := hd
    by_cases h : hn = n ∧ hd' = d
    · simp [incrementBucket, getEventCount, h]
    · simp [incrementBucket, getEventCount, h, ih]

theorem shown_features_notifyIsShowing (v : ConditionValidatorState)
    (f g : String) (h : f ∈ v.shown_features) :
    f ∈ (NotifyIsShowing v g).shown_features := by
  unfold NotifyIsShowing
  dsimp only
  split
  · exact h
  · exact List.mem_cons_of_mem _ h

theorem shown_features_applyOp (s : TrackerState) (op : TrackerOp) (f : String)
    (h : f ∈ s.condition_validator.shown_features) :
    f ∈ (applyOp s op).condition_validator.shown_features := by
  cases op with
  | notifyEvent event day => exact h
  | shouldTriggerHelpUI g day =>
    simp only [applyOp, ShouldTriggerHelpUI]
    split
    · exact shown_features_notifyIsShowing _ f g h
    · exact h
  | dismissed g => exact h
  | isInitialized => exact h
  | addOnInitializedCallback cb =>
    simp only [applyOp, AddOnInitializedCallback]
    split <;> exact h
  | onModelInitializationFinished success => exact h
  | runTask =>
    simp only [applyOp, runTask]
    split <;> exact h

theorem shown_features_applyOps (s : TrackerState) (ops : List TrackerOp)
    (f : String) (h : f ∈ s.condition_validator.shown_features) :
    f ∈ (applyOps s ops).condition_validator.shown_features := by
  induction ops generalizing s with
  | nil => exact h
  | cons op rest ih => exact ih _ (shown_features_applyOp s op f h)

theorem shouldTrigger_false_of_shown (s : TrackerState) (feature : String)
    (day : Nat) (h : feature ∈ s.condition_validator.shown_features) :
    (ShouldTriggerHelpUI s feature day).2 = false := by
  simp [ShouldTriggerHelpUI, MeetsConditions, h]

theorem shown_after_successful_trigger (s : TrackerState) (feature : String)
    (day : Nat) (h : (ShouldTriggerHelpUI s feature day).2 = true) :
    feature ∈ (ShouldTriggerHelpUI s feature day).1.condition_validator.shown_features := by
  by_cases hres : MeetsConditions s.condition_validator feature
      (GetFeatureConfig s.configuration feature) s.model s.availability_model
      day = true
  · simp only [ShouldTriggerHelpUI, hres, if_true]
    dsimp only [NotifyIsShowing]
    split
    · assumption
    · exact List.mem_cons_self _ _
  · simp [ShouldTriggerHelpUI, hres] at h

theorem getFeatureConfig_mem (cfgs : List (String × FeatureConfig))
    (feature : String) (h : (GetFeatureConfig cfgs feature).valid = true) :
    ∃ p ∈ cfgs, p.2 = GetFeatureConfig cfgs feature := by
  induction cfgs with
  | nil => simp [GetFeatureConfig] at h
  | cons hd tl ih =>
    obtain ⟨g, c⟩ := hd
    by_cases hg : g = feature
    · exact ⟨(g, c), List.mem_cons_self _ _, by simp [GetFeatureConfig, hg]⟩
    · simp only [GetFeatureConfig, hg, if_false] at h ⊢
      obtain ⟨p, hp, hpe⟩ := ih h
      exact ⟨p, List.mem_cons_of_mem _ hp, hpe⟩

theorem registerAll_fields (s : TrackerState) (cbs : List Nat)
    (h : s.initialization_finished = false) :
    (registerAll s cbs).initialization_finished = false ∧
    (registerAll s cbs).on_initialized_callbacks
        = s.on_initialized_callbacks ++ cbs ∧
    (registerAll s cbs).posted_tasks = s.posted_tasks ∧
    (registerAll s cbs).delivered = s.delivered ∧
    (registerAll s cbs).model = s.model := by
  induction cbs generalizing s with
  | nil => simp [registerAll, h]
  | cons cb rest ih =>
    have hstep : AddOnInitializedCallback s cb =
        { s with on_initialized_callbacks := s.on_initialized_callbacks ++ [cb] } := by
      simp [AddOnInitializedCallback, h]
    have := ih (AddOnInitializedCallback s cb) (by simp [hstep, h])
    simpa [registerAll, hstep, h, List.append_assoc] using this

theorem runTasks_drain (l : List (Nat × Bool)) (s : TrackerState)
    (h : s.posted_tasks = l) :
    (runTasks s l.length).delivered = s.delivered ++ l ∧
    (runTasks s l.length).posted_tasks = [] := by
  induction l generalizing s with
  | nil => simp [runTasks, h]
  | cons t rest ih =>
    have hstep : runTask s =
        { s with posted_tasks := rest, delivered := s.delivered ++ [t] } := by
      simp only [runTask, h]
    have := ih (runTask s) (by simp [hstep])
    simpa [runTasks, hstep, List.append_assoc] using this

theorem init_finished_applyOp (s : TrackerState) (op : TrackerOp)
    (h : s.initialization_finished = true) :
    (applyOp s op).initialization_finished = true := by
  cases op with
  | notifyEvent event day => exact h
  | shouldTriggerHelpUI g day =>
    simp only [applyOp, ShouldTriggerHelpUI]
    split <;> exact h
  | dismissed g => exact h
  | isInitialized => exact h
  | addOnInitializedCallback cb =>
    simp only [applyOp, AddOnInitializedCallback]
    split <;> exact h
  | onModelInitializationFinished success => rfl
  | runTask =>
    simp only [applyOp, runTask]
    split <;> exact h

/-! ## Claim theorems -/

/-- C1: for every feature F, if the Model is not ready — initialization not
completed or reported failure — then `ShouldTriggerHelpUI(F)` returns false
(for every F, including those with valid configs) and `IsInitialized()`
returns false. -/
theorem C1_fail_closed_when_model_not_ready (s : TrackerState)
    (feature : String) (day : Nat) (h : s.model.ready = false) :
    (ShouldTriggerHelpUI s feature day).2 = false ∧ IsInitialized s = false := by
  refine ⟨?_, h⟩
  simp [ShouldTriggerHelpUI, MeetsConditions, h]

theorem C1_fail_closed_when_model_not_ready_witness :
    s0.model.ready = false ∧
      ((ShouldTriggerHelpUI s0 "F1" 2).2 = false ∧ IsInitialized s0 = false) :=
  ⟨rfl, C1_fail_closed_when_model_not_ready s0 "F1" 2 rfl⟩

/-- C3: a `NotifyEvent(x)` call made before the engine reaches readiness has
no effect on any stored event count — it is dropped, not queued — so after
initialization succeeds the count for its day is the same as if the call
had never happened. -/
theorem C3_event_dropped_before_ready (s : TrackerState) (x : String)
    (day : Nat) (h : s.model.ready = false) :
    NotifyEvent s x day = s ∧
    getEventCount
        (modelInitializationFinished (NotifyEvent s x day) true).model.events
        x day
      = getEventCount (modelInitializationFinished s true).model.events x day := by
  have h1 : NotifyEvent s x day = s := by
    simp [NotifyEvent, ModelState.incrementEvent, h]
  exact ⟨h1, by rw [h1]⟩

theorem C3_event_dropped_before_ready_witness :
    s0.model.ready = false ∧ NotifyEvent s0 "x" 2 = s0 :=
  ⟨rfl, (C3_event_dropped_before_ready s0 "x" 2 rfl).1⟩

/-- C6: registering a callback after initialization has already finished
does not touch the pending queue; the callback is immediately posted for
asynchronous delivery carrying `Model.IsReady()` at scheduling time, and
nothing is invoked inline. -/
theorem C6_late_registration_posts_immediately (s : TrackerState) (cb : Nat)
    (h : s.initialization_finished = true) :
    (AddOnInitializedCallback s cb).on_initialized_callbacks
        = s.on_initialized_callbacks ∧
    (AddOnInitializedCallback s cb).posted_tasks
        = s.posted_tasks ++ [(cb, s.model.ready)] ∧
    (AddOnInitializedCallback s cb).delivered = s.delivered := by
  simp [AddOnInitializedCallback, h]

theorem C6_late_registration_posts_immediately_witness :
    sReady.initialization_finished = true ∧
      ((AddOnInitializedCallback sReady 5).on_initialized_callbacks
          = sReady.on_initialized_callbacks ∧
       (AddOnInitializedCallback sReady 5).posted_tasks
          = sReady.posted_tasks ++ [(5, sReady.model.ready)] ∧
       (AddOnInitializedCallback sReady 5).delivered = sReady.delivered) :=
  ⟨rfl, C6_late_registration_posts_immediately sReady 5 rfl⟩

/-- C7: `initialization_finished_` is monotone — once true, no sequence of
tracker operations (NotifyEvent, ShouldTriggerHelpUI, Dismissed,
IsInitialized, AddOnInitializedCallback, OnModelInitializationFinished,
task-pump steps) ever resets it to false. -/
theorem C7_initialization_flag_monotone (s : TrackerState)
    (ops : List TrackerOp) (h : s.initialization_finished = true) :
    (applyOps s ops).initialization_finished = true := by
  induction ops generalizing s with
  | nil => exact h
  | cons op rest ih => exact ih _ (init_finished_applyOp s op h)

theorem C7_initialization_flag_monotone_witness :
    sReady.initialization_finished = true ∧
      (applyOps sReady
          [TrackerOp.notifyEvent "x" 1, TrackerOp.dismissed "F1",
           TrackerOp.addOnInitializedCallback 3,
           TrackerOp.runTask]).initialization_finished = true :=
  ⟨rfl,
   C7_initialization_flag_monotone sReady
     [TrackerOp.notifyEvent "x" 1, TrackerOp.dismissed "F1",
      TrackerOp.addOnInitializedCallback 3, TrackerOp.runTask] rfl⟩

/-- C8: `Dismissed(F)` is idempotent and total over readiness states:
calling it twice in a row leaves the engine exactly as calling it once, and
calling it when F is not currently showing (in particular when F was never
shown) changes nothing at all. -/
theorem C8_dismissed_idempotent (s : TrackerState) (feature : String) :
    Dismissed (Dismissed s feature) feature = Dismissed s feature ∧
    (feature ∉ s.condition_validator.currently_showing →
      Dismissed s feature = s) := by
  constructor
  · simp [Dismissed, NotifyDismissed, List.filter_filter]
  · intro hmem
    have hfil : s.condition_validator.currently_showing.filter
        (fun f => f ≠ feature) = s.condition_validator.currently_showing :=
      List.filter_eq_self.mpr (fun a ha => by
        simp only [ne_eq, decide_eq_true_eq]
        exact fun he => hmem (he ▸ ha))
    simp only [ne_eq, decide_not] at hfil
    simp [Dismissed, NotifyDismissed, hfil]

theorem C8_dismissed_idempotent_witness :
    Dismissed (Dismissed s0 "F1") "F1" = Dismissed s0 "F1" ∧
      Dismissed s0 "F1" = s0 :=
  ⟨(C8_dismissed_idempotent s0 "F1").1,
   (C8_dismissed_idempotent s0 "F1").2 (by decide)⟩

/-- C10: whenever `ShouldTriggerHelpUI(F)` returns false it changes no state
at all: the validator's showing/triggered sets, the Model's event counts
and every other field are exactly as before the call. -/
theorem C10_false_result_is_pure_read (s : TrackerState) (feature : String)
    (day : Nat) (h : (ShouldTriggerHelpUI s feature day).2 = false) :
    (ShouldTriggerHelpUI s feature day).1 = s := by
  by_cases hres : MeetsConditions s.condition_validator feature
      (GetFeatureConfig s.configuration feature) s.model s.availability_model
      day = true
  · simp [ShouldTriggerHelpUI, hres] at h
  · simp [ShouldTriggerHelpUI, hres]

theorem C10_false_result_is_pure_read_witness :
    (ShouldTriggerHelpUI s0 "F1" 2).2 = false ∧
      (ShouldTriggerHelpUI s0 "F1" 2).1 = s0 :=
  ⟨rfl, C10_false_result_is_pure_read s0 "F1" 2 rfl⟩

/-- C2: when the engine is READY, `ShouldTriggerHelpUI(F)` delegates the
decision to `ConditionValidator.MeetsConditions`; exactly when that result
has no errors it marks F showing via `NotifyIsShowing`, increments F's
configured trigger event for the current day, and returns true; otherwise
it returns false and leaves the state alone. -/
theorem C2_ready_delegates_to_validator (s : TrackerState) (feature : String)
    (day : Nat) (hready : s.model.ready = true) :
    (MeetsConditions s.condition_validator feature
        (GetFeatureConfig s.configuration feature) s.model s.availability_model
        day = true →
      ShouldTriggerHelpUI s feature day =
        ({ s with
            condition_validator := NotifyIsShowing s.condition_validator feature,
            model := s.model.incrementEvent
              (GetFeatureConfig s.configuration feature).trigger.name day },
          true) ∧
      getEventCount (ShouldTriggerHelpUI s feature day).1.model.events
          (GetFeatureConfig s.configuration feature).trigger.name day
        = getEventCount s.model.events
            (GetFeatureConfig s.configuration feature).trigger.name day + 1) ∧
    (MeetsConditions s.condition_validator feature
        (GetFeatureConfig s.configuration feature) s.model s.availability_model
        day = false →
      ShouldTriggerHelpUI s feature day = (s, false)) := by
  constructor
  · intro hres
    have heq : ShouldTriggerHelpUI s feature day =
        ({ s with
            condition_validator := NotifyIsShowing s.condition_validator feature,
            model := s.model.incrementEvent
              (GetFeatureConfig s.configuration feature).trigger.name day },
          true) := by
      simp [ShouldTriggerHelpUI, hres]
    refine ⟨heq, ?_⟩
    rw [heq]
    simp [ModelState.incrementEvent, hready, getEventCount_incrementBucket]
  · intro hres
    simp [ShouldTriggerHelpUI, hres]

theorem C2_ready_delegates_to_validator_witness :
    sReady.model.ready = true ∧
      (ShouldTriggerHelpUI sReady "F1" 3 =
        ({ sReady with
            condition_validator := NotifyIsShowing sReady.condition_validator "F1",
            model := sReady.model.incrementEvent
              (GetFeatureConfig sReady.configuration "F1").trigger.name 3 },
          true) ∧
       getEventCount (ShouldTriggerHelpUI sReady "F1" 3).1.model.events
          (GetFeatureConfig sReady.configuration "F1").trigger.name 3
        = getEventCount sReady.model.events
            (GetFeatureConfig sReady.configuration "F1").trigger.name 3 + 1) :=
  ⟨rfl, (C2_ready_delegates_to_validator sReady "F1" 3 rfl).1 rfl⟩

/-- C4: under the one-shot ConditionValidator (the demo-mode wiring), once
`ShouldTriggerHelpUI(F)` has returned true, every later call for F returns
false after any sequence of further operations, even ones (like dismissal)
that would otherwise re-satisfy the conditions. -/
theorem C4_single_trigger_one_shot (s : TrackerState) (feature : String)
    (day : Nat) (ops : List TrackerOp) (day2 : Nat)
    (h : (ShouldTriggerHelpUI s feature day).2 = true) :
    (ShouldTriggerHelpUI
        (applyOps (ShouldTriggerHelpUI s feature day).1 ops) feature day2).2
      = false := by
  apply shouldTrigger_false_of_shown
  apply shown_features_applyOps
  exact shown_after_successful_trigger s feature day h

theorem C4_single_trigger_one_shot_witness :
    (ShouldTriggerHelpUI sReady "F1" 3).2 = true ∧
      (ShouldTriggerHelpUI
          (applyOps (ShouldTriggerHelpUI sReady "F1" 3).1
            [TrackerOp.dismissed "F1"]) "F1" 4).2 = false :=
  ⟨rfl, C4_single_trigger_one_shot sReady "F1" 3 [TrackerOp.dismissed "F1"] 4 rfl⟩

/-- C5: for N callbacks registered before initialization finishes,
initialization success causes exactly N posted deliveries, each bound to
`success = true`, none invoked inline, in FIFO registration order; the
pending queue is empty afterwards and pumping the task queue delivers
exactly those N callbacks in order. -/
theorem C5_callbacks_delivered_exactly_once (s : TrackerState)
    (cbs : List Nat) (h : s.initialization_finished = false)
    (hq : s.on_initialized_callbacks = []) (hp : s.posted_tasks = []) :
    (modelInitializationFinished (registerAll s cbs) true).on_initialized_callbacks
        = [] ∧
    (modelInitializationFinished (registerAll s cbs) true).delivered
        = s.delivered ∧
    (modelInitializationFinished (registerAll s cbs) true).posted_tasks
        = cbs.map (fun cb => (cb, true)) ∧
    (runTasks (modelInitializationFinished (registerAll s cbs) true)
        cbs.length).delivered
      = s.delivered ++ cbs.map (fun cb => (cb, true)) ∧
    (runTasks (modelInitializationFinished (registerAll s cbs) true)
        cbs.length).posted_tasks = [] := by
  obtain ⟨h1, h2, h3, h4, h5⟩ := registerAll_fields s cbs h
  have hposted : (modelInitializationFinished (registerAll s cbs) true).posted_tasks
      = cbs.map (fun cb => (cb, true)) := by
    show (registerAll s cbs).posted_tasks
        ++ (registerAll s cbs).on_initialized_callbacks.map (fun cb => (cb, true))
      = cbs.map (fun cb => (cb, true))
    rw [h3, hp, h2, hq]
    simp
  have hdel : (modelInitializationFinished (registerAll s cbs) true).delivered
      = s.delivered := h4
  have hlen : cbs.length = (cbs.map (fun cb => (cb, true))).length :=
    (List.length_map _ _).symm
  have hdrain := runTasks_drain (cbs.map (fun cb => (cb, true)))
      (modelInitializationFinished (registerAll s cbs) true) hposted
  refine ⟨rfl, hdel, hposted, ?_, ?_⟩
  · rw [hlen, hdrain.1, hdel]
  · rw [hlen]
    exact hdrain.2

theorem C5_callbacks_delivered_exactly_once_witness :
    s0.initialization_finished = false ∧
      ((modelInitializationFinished (registerAll s0 [1, 2]) true).on_initialized_callbacks
          = [] ∧
       (modelInitializationFinished (registerAll s0 [1, 2]) true).delivered
          = s0.delivered ∧
       (modelInitializationFinished (registerAll s0 [1, 2]) true).posted_tasks
          = [1, 2].map (fun cb => (cb, true)) ∧
       (runTasks (modelInitializationFinished (registerAll s0 [1, 2]) true)
           ([1, 2] : List Nat).length).delivered
          = s0.delivered ++ [1, 2].map (fun cb => (cb, true)) ∧
       (runTasks (modelInitializationFinished (registerAll s0 [1, 2]) true)
           ([1, 2] : List Nat).length).posted_tasks = []) :=
  ⟨rfl, C5_callbacks_delivered_exactly_once s0 [1, 2] rfl rfl rfl⟩

/-- C9: assuming every registered config that reports `valid = true` has a
non-empty trigger event name, whenever `MeetsConditions` reports no errors
the looked-up config's `trigger.name` is not the empty string, so the
success branch's `DCHECK_NE("", feature_config.trigger.name)` never fires
and the trigger-event increment is well-defined. -/
theorem C9_trigger_name_nonempty (s : TrackerState) (feature : String)
    (day : Nat)
    (hcfg : ∀ p ∈ s.configuration, p.2.valid = true → p.2.trigger.name ≠ "")
    (h : MeetsConditions s.condition_validator feature
        (GetFeatureConfig s.configuration feature) s.model s.availability_model
        day = true) :
    (GetFeatureConfig s.configuration feature).trigger.name ≠ "" := by
  have hvalid : (GetFeatureConfig s.configuration feature).valid = true := by
    simp only [MeetsConditions, Bool.and_eq_true] at h
    exact h.1.1.2
  obtain ⟨p, hpmem, hpe⟩ := getFeatureConfig_mem s.configuration feature hvalid
  have hne := hcfg p hpmem (by rw [hpe]; exact hvalid)
  rw [← hpe]
  exact hne

theorem C9_trigger_name_nonempty_witness :
    (GetFeatureConfig sReady.configuration "F1").trigger.name ≠ "" :=
  C9_trigger_name_nonempty sReady "F1" 3 (by decide) rfl

end FeatureEngagement
